import Mathlib

/-!
Verification of the movi backend (Flask + MongoDB media-tracking API) against its
natural-language specification.

The Python sources are shallowly embedded:
MongoDB documents become Lean structures, collections become lists, and the
database handle becomes an explicit `Db` value threaded through the operations.
MongoDB ObjectIds are modelled as natural numbers (`Oid`); `str(oid)` is
injective, so deduplication by stringified id is deduplication by value.
External HTTP calls (TMDB, OpenLibrary) are modelled as explicit oracle
functions passed to the operations.  Fresh ids and timestamps that the real
system obtains from the store or the clock are passed as parameters.
-/

/-- MongoDB ObjectId, modelled as a natural number. -/
abbrev Oid := Nat

/-- A primitive JSON value stored inside an activity `meta` mapping
(strings, integers or `null`, which is all the producers in this codebase attach). -/
inductive MetaVal where
  | s (v : String)
  | i (v : Int)
  | nullv
deriving DecidableEq

/-- Actor metadata returned by `_build_user_lookup` in `app/users/service.py`:
exactly the fields `id`, `username`, `name`, `avatarUrl`. -/
structure ActorInfo where
  id : Oid
  username : Option String
  name : Option String
  avatarUrl : Option String
deriving DecidableEq

/-- A document of the `users` collection.  Membership-list fields are
`Option (List _)` because the handlers distinguish a missing field
(`"watchedMovies" not in user`) from an empty list. -/
structure UserDoc where
  id : Oid
  username : Option String
  name : Option String
  avatarUrl : Option String
  watchedMovies : Option (List Int)
  watchLaterMovies : Option (List Int)
  readBooks : Option (List String)
  toBeReadBooks : Option (List String)
  movieReviews : List Oid
  bookReviews : List Oid
  activities : List Oid
deriving DecidableEq

/-- A document of the `userActivities` collection (see `add_activity` in
`app/users/service.py`).  `createdAt` is the insertion timestamp. -/
structure ActivityRow where
  id : Oid
  userId : Oid
  activity : String
  meta : Option (List (String × MetaVal))
  createdAt : Nat
deriving DecidableEq

/-- A serialized feed entry as produced by `_serialize_activities`:
the activity fields plus an optional resolved `user` (actor) object. -/
structure FeedEntry where
  id : Oid
  userId : Oid
  activity : String
  meta : Option (List (String × MetaVal))
  createdAt : Nat
  user : Option ActorInfo
deriving DecidableEq

/-- The timestamp-ish value stored in a review's `createdAt`/`updatedAt` slot.
`dt` is a real `datetime` (carried as its `isoformat()` rendering), `raw` is any
other value (carried as its `str()` rendering), `missing` is an absent field /
`None`.  This mirrors exactly the three branches of `_coerce_iso`. -/
inductive CreatedAt where
  | dt (iso : String)
  | raw (s : String)
  | missing
deriving DecidableEq

/-- A document of the `movieReviews` collection. -/
structure MovieReview where
  id : Oid
  userId : Oid
  movieId : Int
  rating : Int
  title : Option String
  body : String
  createdAt : CreatedAt
  updatedAt : CreatedAt
deriving DecidableEq

/-- A document of the `bookReviews` collection. -/
structure BookReview where
  id : Oid
  userId : Oid
  bookId : String
  rating : Int
  title : Option String
  body : String
  createdAt : CreatedAt
  updatedAt : CreatedAt
deriving DecidableEq

/-- The MongoDB database: the four collections the specified components touch. -/
structure Db where
  users : List UserDoc
  userActivities : List ActivityRow
  movieReviews : List MovieReview
  bookReviews : List BookReview
deriving DecidableEq

/-- Semantics of pymongo's `cursor.limit(n)` for a non-negative `n`:
`limit(0)` is documented by pymongo to be "equivalent to setting no limit",
any positive `n` truncates to the first `n` results. -/
def mongoLimit (n : Nat) (l : List α) : List α :=
  if n = 0 then l else l.take n

/-- Descending `createdAt` order on activity rows: the comparison performed by
`.sort("createdAt", -1)` on the `userActivities` collection. -/
def actGE (a b : ActivityRow) : Prop := b.createdAt ≤ a.createdAt

instance : DecidableRel actGE := fun a b => Nat.decLe b.createdAt a.createdAt

instance : IsTotal ActivityRow actGE :=
  ⟨fun a b => Or.symm (Nat.le_total a.createdAt b.createdAt)⟩

instance : IsTrans ActivityRow actGE :=
  ⟨fun _ _ _ hab hbc => Nat.le_trans hbc hab⟩

/-- `db.userActivities.find(filter).sort("createdAt", -1)`, for a boolean filter. -/
def findActivitiesSorted (db : Db) (p : ActivityRow → Bool) : List ActivityRow :=
  List.insertionSort actGE (db.userActivities.filter p)

/-- The id-deduplication loop at the top of `_build_user_lookup`: keep the first
occurrence of each id (`seen` starts empty).  `str` on ObjectIds is injective, so
deduplicating by stringified id is deduplicating by value. -/
def dedupOids : List Oid → List Oid :=
  go []
where
  go (seen : List Oid) : List Oid → List Oid
    | [] => []
    | x :: xs => if x ∈ seen then go seen xs else x :: go (x :: seen) xs

/-- `_build_user_lookup` from `app/users/service.py`: deduplicate the ids,
return `{}` without querying when none remain, otherwise one batch
`find({"_id": {"$in": valid}}, {"username": 1, "name": 1, "avatarUrl": 1})`
shaped into a mapping keyed by id.  The mapping is modelled as an association
list. -/
def _build_user_lookup (db : Db) (ids : List Oid) : List (Oid × ActorInfo) :=
  let valid := dedupOids ids
  if valid.isEmpty then []
  else
    (db.users.filter (fun u => decide (u.id ∈ valid))).map
      (fun u => (u.id, ⟨u.id, u.username, u.name, u.avatarUrl⟩))

/-- `_serialize_activities`: shape each activity document, attaching the
resolved actor as `user` when the lookup has it (and leaving it absent
otherwise; an empty lookup mapping attaches nothing, which coincides with
`List.lookup` on an empty association list). -/
def _serialize_activities (docs : List ActivityRow)
    (lookup : List (Oid × ActorInfo)) : List FeedEntry :=
  docs.map (fun d =>
    { id := d.id, userId := d.userId, activity := d.activity, meta := d.meta,
      createdAt := d.createdAt, user := List.lookup d.userId lookup })

/-- `get_user_activity` from `app/users/service.py` (own feed; the Python
default for `limit` is 50): activities of the single user, newest first,
limited, then serialized with the actor lookup for `[user_id]`. -/
def get_user_activity (db : Db) (user_id : Oid) (limit : Nat) : List FeedEntry :=
  let docs := mongoLimit limit (findActivitiesSorted db (fun d => d.userId == user_id))
  let actors := _build_user_lookup db [user_id]
  _serialize_activities docs actors

/-- `get_user_activity_with_friends` from `app/users/service.py` (network feed;
the Python default for `limit` is 100): activities of `[user_id] + friend_ids`
via one `$in` query, newest first, limited, serialized with the actor lookup
for the whole id list. -/
def get_user_activity_with_friends (db : Db) (user_id : Oid)
    (friend_ids : List Oid) (limit : Nat) : List FeedEntry :=
  let ids := user_id :: friend_ids
  let docs := mongoLimit limit (findActivitiesSorted db (fun d => decide (d.userId ∈ ids)))
  let actors := _build_user_lookup db ids
  _serialize_activities docs actors

/-! ### Helper lemmas about the embedding -/

theorem dedupOids_go_mem (a : Oid) (l : List Oid) :
    ∀ seen, a ∈ dedupOids.go seen l ↔ a ∈ l ∧ a ∉ seen := by
  induction l with
  | nil => intro seen; simp [dedupOids.go]
  | cons x xs ih =>
    intro seen
    by_cases hx : x ∈ seen
    · rw [dedupOids.go, if_pos hx, ih seen]
      constructor
      · exact fun ⟨h1, h2⟩ => ⟨List.mem_cons_of_mem _ h1, h2⟩
      · rintro ⟨h1, h2⟩
        rcases List.mem_cons.mp h1 with rfl | h1
        · exact absurd hx h2
        · exact ⟨h1, h2⟩
    · rw [dedupOids.go, if_neg hx]
      simp only [List.mem_cons, ih (x :: seen)]
      constructor
      · rintro (rfl | ⟨h1, h2⟩)
        · exact ⟨Or.inl rfl, hx⟩
        · exact ⟨Or.inr h1, fun hs => h2 (Or.inr hs)⟩
      · rintro ⟨rfl | h1, h2⟩
        · exact Or.inl rfl
        · by_cases hax : a = x
          · exact Or.inl hax
          · refine Or.inr ⟨h1, fun hs => ?_⟩
            rcases hs with rfl | hs
            · exact hax rfl
            · exact h2 hs

theorem dedupOids_go_nodup (l : List Oid) :
    ∀ seen, (dedupOids.go seen l).Nodup := by
  induction l with
  | nil => intro seen; simp [dedupOids.go]
  | cons x xs ih =>
    intro seen
    by_cases hx : x ∈ seen
    · rw [dedupOids.go, if_pos hx]; exact ih seen
    · rw [dedupOids.go, if_neg hx]
      refine List.nodup_cons.mpr ⟨fun hmem => ?_, ih (x :: seen)⟩
      exact ((dedupOids_go_mem x xs (x :: seen)).mp hmem).2 (List.mem_cons_self x seen)

theorem dedupOids_mem (a : Oid) (l : List Oid) : a ∈ dedupOids l ↔ a ∈ l := by
  rw [dedupOids, dedupOids_go_mem]
  simp

theorem dedupOids_nodup (l : List Oid) : (dedupOids l).Nodup :=
  dedupOids_go_nodup l []

theorem lookup_map_id_none (i : Oid) (f : UserDoc → ActorInfo) :
    ∀ l : List UserDoc, (∀ u ∈ l, u.id ≠ i) →
      List.lookup i (l.map (fun u => (u.id, f u))) = none := by
  intro l
  induction l with
  | nil => intro _; rfl
  | cons u us ih =>
    intro h
    have hne : ¬ (i == u.id) = true := by
      simp only [beq_iff_eq]
      exact fun he => h u (List.mem_cons_self u us) he.symm
    simp only [List.map_cons, List.lookup, hne]
    · exact ih (fun v hv => h v (List.mem_cons_of_mem _ hv))

theorem mongoLimit_of_pos (n : Nat) (hn : 1 ≤ n) (l : List α) :
    mongoLimit n l = l.take n := by
  rw [mongoLimit, if_neg (by omega)]

/-! ### Claim C5 — the actor resolver `_build_user_lookup` -/

/-- C5: `_build_user_lookup` deduplicates the input ids (preserving membership),
returns an empty mapping for an empty input without consulting the store,
returns an empty mapping when no input id matches a user, omits every
unmatched id from the result, and every mapping entry is the four-field
projection of an actual user document. -/
theorem actor_resolver_shape (db : Db) (ids : List Oid) :
    (dedupOids ids).Nodup
    ∧ (∀ a, a ∈ dedupOids ids ↔ a ∈ ids)
    ∧ _build_user_lookup db [] = []
    ∧ ((∀ i ∈ ids, ∀ u ∈ db.users, u.id ≠ i) → _build_user_lookup db ids = [])
    ∧ (∀ i ∈ ids, (∀ u ∈ db.users, u.id ≠ i) →
        List.lookup i (_build_user_lookup db ids) = none)
    ∧ (∀ p ∈ _build_user_lookup db ids, ∃ u ∈ db.users,
        u.id = p.1 ∧ p.2 = ⟨u.id, u.username, u.name, u.avatarUrl⟩) := by
  refine ⟨dedupOids_nodup ids, fun a => dedupOids_mem a ids, rfl, ?_, ?_, ?_⟩
  · intro h
    rw [_build_user_lookup]
    split
    · rfl
    · have hfil : db.users.filter (fun u => decide (u.id ∈ dedupOids ids)) = [] := by
        rw [List.filter_eq_nil_iff]
        intro u hu
        simp only [decide_eq_true_eq]
        intro hmem
        exact h u.id ((dedupOids_mem u.id ids).mp hmem) u hu rfl
      rw [hfil, List.map_nil]
  · intro i hi h
    rw [_build_user_lookup]
    split
    · rfl
    · refine lookup_map_id_none i _ _ (fun u hu => ?_)
      exact h u (List.mem_filter.mp hu).1
  · intro p hp
    rw [_build_user_lookup] at hp
    split at hp
    · cases hp
    · rcases List.mem_map.mp hp with ⟨u, hu, rfl⟩
      exact ⟨u, (List.mem_filter.mp hu).1, rfl, rfl⟩

/-- A tiny user constructor for concrete examples. -/
def mkUser (i : Oid) : UserDoc :=
  ⟨i, some ("user" ++ toString i), none, none, none, none, none, none, [], [], []⟩

/-- Example database for the actor-resolver witness: users 1 and 2 exist, 7 does not. -/
def exDb5 : Db := ⟨[mkUser 1, mkUser 2], [], [], []⟩

/-- Witness for C5: resolving the duplicate-containing list `[7, 7]`, where id 7
matches no user, yields a mapping with no entry for 7. -/
theorem actor_resolver_shape_witness :
    List.lookup 7 (_build_user_lookup exDb5 [7, 7]) = none :=
  (actor_resolver_shape exDb5 [7, 7]).2.2.2.2.1 7 (by decide) (by decide)

/-! ### Claim C2 — `get_user_activity_with_friends` (listByActors) -/

/-- C2 (amended: the bound requires a positive limit, since pymongo's
`limit(0)` means "no limit"): for every actor set and positive limit the
network feed returns at most `limit` rows, every row belongs to one of the
actors, rows are sorted newest-first, and the cap is global by recency: every
matching activity row is either included (same id and timestamp) or is no newer
than every included entry. -/
theorem network_feed_bounded_sorted (db : Db) (u : Oid) (friends : List Oid)
    (limit : Nat) (hl : 1 ≤ limit) :
    (get_user_activity_with_friends db u friends limit).length ≤ limit
    ∧ (∀ e ∈ get_user_activity_with_friends db u friends limit, e.userId ∈ u :: friends)
    ∧ List.Pairwise (fun a b : FeedEntry => b.createdAt ≤ a.createdAt)
        (get_user_activity_with_friends db u friends limit)
    ∧ (∀ row ∈ db.userActivities, row.userId ∈ u :: friends →
        (∃ e ∈ get_user_activity_with_friends db u friends limit,
            e.id = row.id ∧ e.createdAt = row.createdAt)
        ∨ (∀ e ∈ get_user_activity_with_friends db u friends limit,
            row.createdAt ≤ e.createdAt)) := by
  have hout : get_user_activity_with_friends db u friends limit
      = _serialize_activities
          ((findActivitiesSorted db (fun d => decide (d.userId ∈ u :: friends))).take limit)
          (_build_user_lookup db (u :: friends)) := by
    simp only [get_user_activity_with_friends]
    rw [mongoLimit_of_pos limit hl]
  rw [hout]
  have hperm : List.Perm
      (findActivitiesSorted db (fun d => decide (d.userId ∈ u :: friends)))
      (db.userActivities.filter (fun d => decide (d.userId ∈ u :: friends))) :=
    List.perm_insertionSort _ _
  have hsorted : List.Pairwise actGE
      (findActivitiesSorted db (fun d => decide (d.userId ∈ u :: friends))) :=
    List.sorted_insertionSort actGE _
  refine ⟨?_, ?_, ?_, ?_⟩
  · simp only [_serialize_activities, List.length_map, List.length_take]
    exact Nat.min_le_left _ _
  · intro e he
    rcases List.mem_map.mp he with ⟨d, hd, rfl⟩
    have hds : d ∈ findActivitiesSorted db (fun x => decide (x.userId ∈ u :: friends)) :=
      List.mem_of_mem_take hd
    have := (List.mem_filter.mp (hperm.mem_iff.mp hds)).2
    exact of_decide_eq_true this
  · rw [_serialize_activities, List.pairwise_map]
    exact hsorted.sublist (List.take_sublist _ _)
  · intro row hrow hmem
    have hrow_s : row ∈ findActivitiesSorted db (fun x => decide (x.userId ∈ u :: friends)) :=
      hperm.mem_iff.mpr (List.mem_filter.mpr ⟨hrow, decide_eq_true hmem⟩)
    have hsplit := List.take_append_drop limit
      (findActivitiesSorted db (fun x => decide (x.userId ∈ u :: friends)))
    rw [← hsplit] at hrow_s
    rcases List.mem_append.mp hrow_s with htake | hdrop
    · exact Or.inl ⟨_, List.mem_map_of_mem _ htake, rfl, rfl⟩
    · refine Or.inr (fun e he => ?_)
      rcases List.mem_map.mp he with ⟨d, hd, rfl⟩
      have hpw : List.Pairwise actGE
          ((findActivitiesSorted db (fun x => decide (x.userId ∈ u :: friends))).take limit
            ++ (findActivitiesSorted db (fun x => decide (x.userId ∈ u :: friends))).drop limit) := by
        rw [hsplit]; exact hsorted
      exact (List.pairwise_append.mp hpw).2.2 d hd row hdrop

/-- Example database for C2: one activity row owned by user 0. -/
def cexDb2 : Db := ⟨[mkUser 0], [⟨1, 0, "Added book to Read", none, 5⟩], [], []⟩

/-- Counterexample for C2 as stated: with `limit = 0`, pymongo's `.limit(0)`
applies no limit, so the feed returns 1 row, not at most 0. -/
theorem network_feed_limit_zero_cex :
    ¬ ((get_user_activity_with_friends cexDb2 0 [] 0).length ≤ 0) := by decide

/-- Witness for C2: the bound holds at the concrete positive limit 1. -/
theorem network_feed_bounded_sorted_witness :
    (get_user_activity_with_friends cexDb2 0 [] 1).length ≤ 1 :=
  (network_feed_bounded_sorted cexDb2 0 [] 1 (by decide)).1

/-! ### Claim C3 — own feed vs network feed with no friends -/

/-- Example database for C3: user 0 with 51 activity rows (created at
decreasing timestamps).  At the two functions' own Python defaults
(`limit=50` for `get_user_activity`, `limit=100` for
`get_user_activity_with_friends`) the feeds differ in length (50 vs 51). -/
def exDb3 : Db :=
  ⟨[mkUser 0], (List.range 51).map (fun i => ⟨i, 0, "a", none, 51 - i⟩), [], []⟩

/-- Counterexample for C3 as stated: invoked at their respective default
limits (50 and 100), the own feed and the empty-friend network feed differ
once the user has more than 50 activities. -/
theorem own_vs_network_default_limits_cex :
    get_user_activity exDb3 0 50 ≠ get_user_activity_with_friends exDb3 0 [] 100 := by
  intro h
  exact absurd (congrArg List.length h) (by decide)

/-- C3 (amended: at any common limit): `get_user_activity db u limit` equals
`get_user_activity_with_friends db u [] limit` — the `$in [u]` query, the actor
lookup for `[u]` and the serialization all coincide with the own-feed path.
The equivalence fails only across the two differing Python default limits. -/
theorem own_feed_eq_network_feed_no_friends (db : Db) (u : Oid) (limit : Nat) :
    get_user_activity db u limit = get_user_activity_with_friends db u [] limit := by
  have hf : db.userActivities.filter (fun d => d.userId == u)
      = db.userActivities.filter (fun d => decide (d.userId ∈ [u])) :=
    List.filter_congr (fun d _ => by by_cases h : d.userId = u <;> simp [h])
  simp only [get_user_activity, get_user_activity_with_friends, findActivitiesSorted]
  rw [hf]

/-! ### Review shaping (`app/library/routes.py`) -/

/-- A movie as normalized by `_normalize_movie` in `app/tmdb/routes.py`
(the shape `_fetch_movie_simple` returns on success). -/
structure MovieMeta where
  id : Option Int
  title : String
  year : String
  overview : String
  posterUrl : Option String
  release_date : Option String
deriving DecidableEq

/-- The JSON object (raw OpenLibrary payload) that `get_book_by_id` parses on a
successful 200 response; every field is optional because the two catalog
response shapes carry different keys.  `authors` holds each entry's `name`
value (absent when the entry has none, as in Works JSON author references). -/
structure BookMeta where
  title : Option String
  covers : Option (List Int)
  coverUrl : Option String
  first_publish_year : Option Int
  authors : Option (List (Option String))
  author_name : Option (List String)
deriving DecidableEq

/-- The three possible outcomes of `get_book_by_id`:
`json` — 200 with a parsed body; `errorResp` — any exception (network error,
non-2xx via `raise_for_status`, JSON parse failure), in which case the function
returns the tuple `(jsonify({"error": "server", ...}), 500)` rather than `None`;
`noneResult` — the implicit `None` fall-through (a 2xx response whose status is
not exactly 200). -/
inductive BookFetch where
  | json (b : BookMeta)
  | errorResp
  | noneResult
deriving DecidableEq

/-- `_coerce_iso`: a `datetime` becomes its `isoformat()`, `None` stays `None`,
anything else becomes `str(value)`. -/
def _coerce_iso : CreatedAt → Option String
  | .dt s => some s
  | .raw s => some s
  | .missing => none

/-- A shaped review as built by `_shape_movie_review` / `_shape_book_review`
(fields absent from a given kind's dict are modelled as `none`). -/
structure Shaped where
  id : String
  kind : String
  itemIdMovie : Option Int
  itemIdBook : Option String
  itemTitle : Option String
  itemPoster : Option String
  itemYearMovie : Option String
  itemAuthor : Option String
  itemYearBook : Option Int
  itemCover : Option String
  rating : Int
  title : Option String
  body : String
  createdAt : Option String
  updatedAt : Option String
deriving DecidableEq

/-- The author-name derivation inside `_shape_book_review`: join the truthy
entries of `authors` with ", "; if that yields a falsy value (empty string) or
`authors` was absent, fall back to joining the truthy entries of
`author_name`; an empty join with no fallback available stays the empty
string, while two absent fields leave the author `None`. -/
def bookAuthorName (b : BookMeta) : Option String :=
  match b.authors with
  | some names =>
    let j := String.intercalate ", " ((names.filterMap id).filter (fun s => s ≠ ""))
    if j ≠ "" then some j
    else
      match b.author_name with
      | some lst => some (String.intercalate ", " (lst.filter (fun s => s ≠ "")))
      | none => some j
  | none =>
    match b.author_name with
    | some lst => some (String.intercalate ", " (lst.filter (fun s => s ≠ "")))
    | none => none

/-- `_shape_movie_review`: enrich a stored movie review with the TMDB lookup
result (`ml`), tolerating lookup failure (`none`) by omitting the catalog
fields.  The `str(review.get("_id"))` step cannot raise, so shaping always
yields a dict. -/
def _shape_movie_review (ml : Int → Option MovieMeta) (r : MovieReview) : Shaped :=
  let meta := ml r.movieId
  { id := toString r.id, kind := "movie",
    itemIdMovie := some r.movieId, itemIdBook := none,
    itemTitle := meta.map (fun m => m.title),
    itemPoster := meta.bind (fun m => m.posterUrl),
    itemYearMovie := meta.map (fun m => m.year),
    itemAuthor := none, itemYearBook := none, itemCover := none,
    rating := r.rating, title := r.title, body := r.body,
    createdAt := _coerce_iso r.createdAt, updatedAt := _coerce_iso r.updatedAt }

/-- `_shape_book_review`: enrich a stored book review with the OpenLibrary
lookup result.  On the `errorResp` outcome `get_book_by_id` returns a
`(flask.Response, 500)` tuple (its own `except` handler), so `meta` is a
truthy non-dict and the dict construction's `(meta or {}).get("title")`
raises `AttributeError` — modelled as `Except.error ()`.  On `noneResult`
the catalog fields are omitted; on `json` they are filled in. -/
def _shape_book_review (bl : String → BookFetch) (r : BookReview) : Except Unit Shaped :=
  match bl r.bookId with
  | .errorResp => .error ()
  | .json b => .ok
      { id := toString r.id, kind := "book",
        itemIdMovie := none, itemIdBook := some r.bookId,
        itemTitle := b.title, itemPoster := none, itemYearMovie := none,
        itemAuthor := bookAuthorName b, itemYearBook := b.first_publish_year,
        itemCover := b.coverUrl,
        rating := r.rating, title := r.title, body := r.body,
        createdAt := _coerce_iso r.createdAt, updatedAt := _coerce_iso r.updatedAt }
  | .noneResult => .ok
      { id := toString r.id, kind := "book",
        itemIdMovie := none, itemIdBook := some r.bookId,
        itemTitle := none, itemPoster := none, itemYearMovie := none,
        itemAuthor := none, itemYearBook := none, itemCover := none,
        rating := r.rating, title := r.title, body := r.body,
        createdAt := _coerce_iso r.createdAt, updatedAt := _coerce_iso r.updatedAt }

/-- The Python sort key `r.get("createdAt") or ""` used by `list_reviews`:
a missing/None coerced timestamp is replaced by the empty string. -/
def sortKey (s : Shaped) : String := s.createdAt.getD ""

/-- Descending sort-key order on shaped reviews, as applied by
`items.sort(key=..., reverse=True)`. -/
def shapedGE (a b : Shaped) : Prop := sortKey b ≤ sortKey a

instance : DecidableRel shapedGE :=
  fun a b => inferInstanceAs (Decidable (sortKey b ≤ sortKey a))

instance : IsTotal Shaped shapedGE :=
  ⟨fun a b => Or.symm (le_total (sortKey a) (sortKey b))⟩

instance : IsTrans Shaped shapedGE :=
  ⟨fun _ _ _ hab hbc => le_trans hbc hab⟩

/-- BSON comparison key for a stored `createdAt` value, used by the MongoDB
`.sort("createdAt", -1)` on the review collections: BSON orders null below
strings below dates, and within dates the `isoformat` rendering agrees with
chronological order.  The leading type-bracket character encodes that order
lexicographically. -/
def bsonKey : CreatedAt → String
  | .dt s => "2" ++ s
  | .raw s => "1" ++ s
  | .missing => "0"

/-- Descending store order on movie reviews (`.sort("createdAt", -1)`). -/
def mrGE (a b : MovieReview) : Prop := bsonKey b.createdAt ≤ bsonKey a.createdAt

instance : DecidableRel mrGE :=
  fun a b => inferInstanceAs (Decidable (bsonKey b.createdAt ≤ bsonKey a.createdAt))

/-- Descending store order on book reviews (`.sort("createdAt", -1)`). -/
def brGE (a b : BookReview) : Prop := bsonKey b.createdAt ≤ bsonKey a.createdAt

instance : DecidableRel brGE :=
  fun a b => inferInstanceAs (Decidable (bsonKey b.createdAt ≤ bsonKey a.createdAt))

/-- The book-review shaping loop of `list_reviews`: shape each review in
order; a raising shape aborts the whole request (the loop body is not
guarded). -/
def _shape_book_reviews (bl : String → BookFetch) :
    List BookReview → Except Unit (List Shaped)
  | [] => .ok []
  | r :: rs =>
    match _shape_book_review bl r with
    | .error e => .error e
    | .ok s =>
      match _shape_book_reviews bl rs with
      | .error e => .error e
      | .ok ss => .ok (s :: ss)

/-- `list_reviews` (the items of the 200 response for a valid user id):
fetch both review collections for the user sorted newest-first by the store,
shape each, concatenate movie-shaped then book-shaped, and re-sort the
combined list by the coerced `createdAt` key descending. -/
def list_reviews (db : Db) (ml : Int → Option MovieMeta)
    (bl : String → BookFetch) (uid : Oid) : Except Unit (List Shaped) :=
  let movie_reviews := List.insertionSort mrGE (db.movieReviews.filter (fun r => r.userId == uid))
  let book_reviews := List.insertionSort brGE (db.bookReviews.filter (fun r => r.userId == uid))
  let movieShaped := movie_reviews.map (_shape_movie_review ml)
  match _shape_book_reviews bl book_reviews with
  | .error e => .error e
  | .ok bookShaped => .ok (List.insertionSort shapedGE (movieShaped ++ bookShaped))

/-! ### String-order facts for the sort key -/

theorem empty_le_string (s : String) : "" ≤ s := by
  rw [String.le_iff_toList_le]
  exact List.nil_le

theorem le_empty_string {s : String} (h : s ≤ "") : s = "" :=
  le_antisymm h (empty_le_string s)

theorem shape_book_reviews_ok (bl : String → BookFetch) :
    ∀ (rs : List BookReview) (l : List Shaped), _shape_book_reviews bl rs = .ok l →
      l = rs.filterMap (fun r => (_shape_book_review bl r).toOption) := by
  intro rs
  induction rs with
  | nil => intro l h; cases h; rfl
  | cons r rest ih =>
    intro l h
    rw [_shape_book_reviews] at h
    cases hr : _shape_book_review bl r with
    | error e => rw [hr] at h; cases h
    | ok s =>
      rw [hr] at h
      cases hrest : _shape_book_reviews bl rest with
      | error e => rw [hrest] at h; cases h
      | ok ss =>
        rw [hrest] at h
        cases h
        simp [List.filterMap_cons, hr, Except.toOption, ih ss hrest]

/-! ### Claim C1 — book review shaping under catalog lookup failure -/

/-- A concrete stored book review for the C1 failing input. -/
def c1Review : BookReview :=
  ⟨1, 0, "OL1W", 7, some "Great", "loved it",
    .dt "2024-01-02T03:04:05", .dt "2024-01-02T03:04:05"⟩

/-- A database holding exactly the C1 review, owned by user 0. -/
def c1Db : Db := ⟨[mkUser 0], [], [], [c1Review]⟩

/-- C1 (code bug, evaluated at the failing input): when the catalog lookup
fails (e.g. a simulated network error), `get_book_by_id` returns a
`(response, 500)` tuple instead of `None`, so `_shape_book_review` raises
`AttributeError` instead of returning a shape with the catalog fields absent,
and `list_reviews` aborts with a 500 — the review's own fields ARE lost.
The degraded shape the claim describes is produced only on the `noneResult`
fall-through, never on an error. -/
theorem shape_book_review_lookup_failure_raises :
    _shape_book_review (fun _ => BookFetch.errorResp) c1Review = Except.error ()
    ∧ list_reviews c1Db (fun _ => none) (fun _ => BookFetch.errorResp) 0 = Except.error ()
    ∧ (_shape_book_review (fun _ => BookFetch.noneResult) c1Review).toOption.bind
        (fun s => s.itemTitle) = none := by
  refine ⟨rfl, rfl, rfl⟩

/-! ### Claim C6 — combined review listing is re-sorted newest first -/

/-- C6: whenever `list_reviews` succeeds, its output is a permutation of the
shaped movie reviews concatenated with the shaped book reviews of that user,
it is sorted by the coerced creation timestamp descending (`shapedGE`), and
once an entry with the empty sort key (missing/unparseable timestamp) appears,
every later entry also has the empty key — such entries are placed last. -/
theorem list_reviews_sorted (db : Db) (ml : Int → Option MovieMeta)
    (bl : String → BookFetch) (uid : Oid) (out : List Shaped)
    (h : list_reviews db ml bl uid = Except.ok out) :
    List.Perm out
      ((db.movieReviews.filter (fun r => r.userId == uid)).map (_shape_movie_review ml)
        ++ (db.bookReviews.filter (fun r => r.userId == uid)).filterMap
            (fun r => (_shape_book_review bl r).toOption))
    ∧ List.Pairwise shapedGE out
    ∧ (∀ l1 a l2, out = l1 ++ a :: l2 → sortKey a = "" →
        ∀ b ∈ l2, sortKey b = "") := by
  rw [list_reviews] at h
  cases hbs : _shape_book_reviews bl
      (List.insertionSort brGE (db.bookReviews.filter (fun r => r.userId == uid))) with
  | error e => rw [hbs] at h; cases h
  | ok bookShaped =>
    rw [hbs] at h
    cases h
    refine ⟨?_, ?_, ?_⟩
    · refine (List.perm_insertionSort shapedGE _).trans (List.Perm.append ?_ ?_)
      · exact (List.perm_insertionSort mrGE _).map _
      · rw [shape_book_reviews_ok bl _ bookShaped hbs]
        exact (List.perm_insertionSort brGE _).filterMap _
    · exact List.sorted_insertionSort shapedGE _
    · intro l1 a l2 hout ha b hb
      have hpw : List.Pairwise shapedGE (l1 ++ a :: l2) := by
        rw [← hout]; exact List.sorted_insertionSort shapedGE _
      have hrel : shapedGE a b :=
        (List.pairwise_cons.mp (List.pairwise_append.mp hpw).2.1).1 b hb
      rw [shapedGE, ha] at hrel
      exact le_empty_string hrel

/-- A concrete movie review, book review and catalog oracles for the C6 witness. -/
def exMr6 : MovieReview :=
  ⟨2, 0, 603, 9, none, "good", .dt "2024-02-02T00:00:00", .dt "2024-02-02T00:00:00"⟩

def exBr6 : BookReview :=
  ⟨3, 0, "OL2W", 8, none, "fine", .missing, .missing⟩

def exDb6 : Db := ⟨[mkUser 0], [], [exMr6], [exBr6]⟩

def exML6 : Int → Option MovieMeta :=
  fun _ => some ⟨some 603, "The Matrix", "1999", "", none, some "1999-03-30"⟩

def exBL6 : String → BookFetch :=
  fun _ => BookFetch.json ⟨some "Dune", some [111], none, some 1965, none, some ["Frank Herbert"]⟩

/-- The payload of a successful `list_reviews`, for stating the C6 witness. -/
def okD : Except Unit (List Shaped) → List Shaped
  | .ok l => l
  | .error _ => []

/-- Witness for C6 at a concrete database with one movie review (with a
timestamp) and one book review (without): the listing is a permutation of the
two shaped reviews, sorted, with the keyless book review last. -/
theorem list_reviews_sorted_witness :
    List.Perm (okD (list_reviews exDb6 exML6 exBL6 0))
      ((exDb6.movieReviews.filter (fun r => r.userId == 0)).map (_shape_movie_review exML6)
        ++ (exDb6.bookReviews.filter (fun r => r.userId == 0)).filterMap
            (fun r => (_shape_book_review exBL6 r).toOption))
    ∧ List.Pairwise shapedGE (okD (list_reviews exDb6 exML6 exBL6 0))
    ∧ (∀ l1 a l2, okD (list_reviews exDb6 exML6 exBL6 0) = l1 ++ a :: l2 →
        sortKey a = "" → ∀ b ∈ l2, sortKey b = "") :=
  list_reviews_sorted exDb6 exML6 exBL6 0 (okD (list_reviews exDb6 exML6 exBL6 0)) rfl

/-! ### Endpoint state model (`app/tmdb/routes.py`, `app/library/routes.py`) -/

/-- The observable part of an endpoint's JSON response: HTTP status, the
machine-readable error code if any, the `removed` flag of the remove
endpoints, and the convenience list count where one is returned. -/
structure Resp where
  status : Nat
  error : Option String
  removed : Option Bool
  count : Option Nat
deriving DecidableEq

/-- Mongo `$addToSet` on a possibly-missing array field: creates the array
when the field is absent, appends when the value is not already present. -/
def addToSetOpt [DecidableEq α] (l : Option (List α)) (v : α) : Option (List α) :=
  match l with
  | none => some [v]
  | some cur => some (if v ∈ cur then cur else cur ++ [v])

/-- Mongo `$addToSet` on an always-present array. -/
def addToSetList [DecidableEq α] (cur : List α) (v : α) : List α :=
  if v ∈ cur then cur else cur ++ [v]

/-- Mongo `$pull` of a value: removes all occurrences; a missing field stays
missing (the update is a no-op on it). -/
def pullOpt [DecidableEq α] (l : Option (List α)) (v : α) : Option (List α) :=
  l.map (fun cur => cur.filter (fun x => x ≠ v))

/-- Apply `f` to the first element satisfying `p` (Mongo `update_one`
touches a single matching document). -/
def updateFirst (p : α → Bool) (f : α → α) : List α → List α
  | [] => []
  | x :: xs => if p x then f x :: xs else x :: updateFirst p f xs

/-- `db.users.find_one({"_id": oid})`. -/
def findUser (db : Db) (oid : Oid) : Option UserDoc :=
  db.users.find? (fun u => u.id == oid)

/-- `db.users.update_one({"_id": oid}, ...)` applied through `f`. -/
def updateUser (db : Db) (oid : Oid) (f : UserDoc → UserDoc) : Db :=
  { db with users := updateFirst (fun u => u.id == oid) f db.users }

/-- `_safe_book_title`: the `title` field of a successfully fetched book
payload; `None` for anything that is not a dict. -/
def _safe_book_title (b : BookFetch) : Option String :=
  match b with
  | .json m => m.title
  | _ => none

/-- `_safe_cover_url`: a cover URL built from the first truthy `covers` id,
falling back to a string `coverUrl` field; `None` for non-dict payloads. -/
def _safe_cover_url (b : BookFetch) : Option String :=
  match b with
  | .json m =>
    match m.covers with
    | some (c :: _) =>
      if c ≠ 0 then some ("https://covers.openlibrary.org/b/id/" ++ toString c ++ "-M.jpg")
      else m.coverUrl
    | _ => m.coverUrl
  | _ => none

/-- Python `str.strip()` with no argument: remove leading and trailing
whitespace.  Implemented on the character list so that it evaluates by
kernel reduction. -/
def pyStrip (s : String) : String :=
  (((s.toList.dropWhile Char.isWhitespace).reverse.dropWhile Char.isWhitespace).reverse).asString

/-- `add_watched_movie` (`POST /addwatchedmovie/user/<userID>/movie/<movieID>`):
validate the user id, parse the movie id as an `int` constrained to int32,
require the TMDB key, require the movie to exist upstream (`ml`), require the
user to exist, reject an id already in `watchedMovies` with 409, otherwise
`$set` or `$addToSet` the list and return the new count. -/
def add_watched_movie (db : Db) (ml : Int → Option MovieMeta) (hasKey : Bool)
    (userID : Option Oid) (movieID : Option Int) : Resp × Db :=
  match userID with
  | none => (⟨400, some "invalid_id", none, none⟩, db)
  | some oid =>
  match movieID with
  | none => (⟨400, some "invalid_movie_id", none, none⟩, db)
  | some mid =>
  if mid < -2147483648 ∨ mid > 2147483647 then
    (⟨400, some "movie_id_out_of_range_int32", none, none⟩, db)
  else if ¬ hasKey then (⟨500, some "server", none, none⟩, db)
  else match ml mid with
  | none => (⟨404, some "movie_not_found_tmdb", none, none⟩, db)
  | some _ =>
  match findUser db oid with
  | none => (⟨404, some "user_not_found", none, none⟩, db)
  | some u =>
    if mid ∈ u.watchedMovies.getD [] then
      (⟨409, some "already_in_watched", none, none⟩, db)
    else
      let db2 := updateUser db oid (fun v =>
        match u.watchedMovies with
        | none => { v with watchedMovies := some [mid] }
        | some _ => { v with watchedMovies := addToSetOpt v.watchedMovies mid })
      let cnt := ((findUser db2 oid).bind (fun v => v.watchedMovies)).getD []
      (⟨200, none, none, some cnt.length⟩, db2)

/-- `add_watch_later_movie` (`POST /addwatchlatermovie/...`): identical flow
to `add_watched_movie` on the `watchLaterMovies` field. -/
def add_watch_later_movie (db : Db) (ml : Int → Option MovieMeta) (hasKey : Bool)
    (userID : Option Oid) (movieID : Option Int) : Resp × Db :=
  match userID with
  | none => (⟨400, some "invalid_id", none, none⟩, db)
  | some oid =>
  match movieID with
  | none => (⟨400, some "invalid_movie_id", none, none⟩, db)
  | some mid =>
  if mid < -2147483648 ∨ mid > 2147483647 then
    (⟨400, some "movie_id_out_of_range_int32", none, none⟩, db)
  else if ¬ hasKey then (⟨500, some "server", none, none⟩, db)
  else match ml mid with
  | none => (⟨404, some "movie_not_found_tmdb", none, none⟩, db)
  | some _ =>
  match findUser db oid with
  | none => (⟨404, some "user_not_found", none, none⟩, db)
  | some u =>
    if mid ∈ u.watchLaterMovies.getD [] then
      (⟨409, some "already_in_watch_later", none, none⟩, db)
    else
      let db2 := updateUser db oid (fun v =>
        match u.watchLaterMovies with
        | none => { v with watchLaterMovies := some [mid] }
        | some _ => { v with watchLaterMovies := addToSetOpt v.watchLaterMovies mid })
      let cnt := ((findUser db2 oid).bind (fun v => v.watchLaterMovies)).getD []
      (⟨200, none, none, some cnt.length⟩, db2)

/-- `remove_watched_movie` (`DELETE /removewatchedmovie/...`): validate ids,
require the user to exist, `$pull` the movie id (a no-op when absent),
report `removed` as whether the document was modified plus the new count. -/
def remove_watched_movie (db : Db) (userID : Option Oid) (movieID : Option Int) :
    Resp × Db :=
  match userID with
  | none => (⟨400, some "invalid_id", none, none⟩, db)
  | some oid =>
  match movieID with
  | none => (⟨400, some "invalid_movie_id", none, none⟩, db)
  | some mid =>
  if mid < -2147483648 ∨ mid > 2147483647 then
    (⟨400, some "movie_id_out_of_range_int32", none, none⟩, db)
  else match findUser db oid with
  | none => (⟨404, some "user_not_found", none, none⟩, db)
  | some u =>
    let modified := decide (pullOpt u.watchedMovies mid ≠ u.watchedMovies)
    let db2 := updateUser db oid (fun v => { v with watchedMovies := pullOpt v.watchedMovies mid })
    let cnt := ((findUser db2 oid).bind (fun v => v.watchedMovies)).getD []
    (⟨200, none, some modified, some cnt.length⟩, db2)

/-- `remove_watch_later_movie` (`DELETE /removewatchlatermovie/...`): same
flow on `watchLaterMovies`. -/
def remove_watch_later_movie (db : Db) (userID : Option Oid) (movieID : Option Int) :
    Resp × Db :=
  match userID with
  | none => (⟨400, some "invalid_id", none, none⟩, db)
  | some oid =>
  match movieID with
  | none => (⟨400, some "invalid_movie_id", none, none⟩, db)
  | some mid =>
  if mid < -2147483648 ∨ mid > 2147483647 then
    (⟨400, some "movie_id_out_of_range_int32", none, none⟩, db)
  else match findUser db oid with
  | none => (⟨404, some "user_not_found", none, none⟩, db)
  | some u =>
    let modified := decide (pullOpt u.watchLaterMovies mid ≠ u.watchLaterMovies)
    let db2 := updateUser db oid (fun v => { v with watchLaterMovies := pullOpt v.watchLaterMovies mid })
    let cnt := ((findUser db2 oid).bind (fun v => v.watchLaterMovies)).getD []
    (⟨200, none, some modified, some cnt.length⟩, db2)

/-- `create_movie_review` (`POST /createmoviereview`): validate the user id,
the movie id (int, int32 range), the rating (int in [1,10]), the body
(non-empty after strip), require the TMDB key and the movie upstream and the
user, then insert the review document and update the user: `$addToSet` the
review reference, `$addToSet` `watchedMovies`, `$pull` `watchLaterMovies`. -/
def create_movie_review (db : Db) (ml : Int → Option MovieMeta) (hasKey : Bool)
    (userId : Option Oid) (movieId : Option Int) (rating : Option Int)
    (title : Option String) (body : Option String)
    (now : String) (freshRid : Oid) : Resp × Db :=
  match userId with
  | none => (⟨400, some "invalid_user_id", none, none⟩, db)
  | some oid =>
  match movieId with
  | none => (⟨400, some "invalid_movie_id", none, none⟩, db)
  | some mid =>
  if ¬ (-2147483648 ≤ mid ∧ mid ≤ 2147483647) then
    (⟨400, some "movie_id_out_of_range_int32", none, none⟩, db)
  else match rating with
  | none => (⟨400, some "invalid_rating", none, none⟩, db)
  | some r =>
  if r < 1 ∨ r > 10 then (⟨400, some "rating_out_of_range", none, none⟩, db)
  else match body with
  | none => (⟨400, some "missing_body", none, none⟩, db)
  | some bod =>
  if pyStrip bod = "" then (⟨400, some "missing_body", none, none⟩, db)
  else if ¬ hasKey then (⟨500, some "server", none, none⟩, db)
  else match ml mid with
  | none => (⟨404, some "movie_not_found_tmdb", none, none⟩, db)
  | some _ =>
  match findUser db oid with
  | none => (⟨404, some "user_not_found", none, none⟩, db)
  | some _ =>
    let doc : MovieReview :=
      ⟨freshRid, oid, mid, r, title, pyStrip bod, .dt now, .dt now⟩
    let db1 := { db with movieReviews := db.movieReviews ++ [doc] }
    let db2 := updateUser db1 oid (fun v => { v with movieReviews := addToSetList v.movieReviews freshRid })
    let db3 := updateUser db2 oid (fun v => { v with watchedMovies := addToSetOpt v.watchedMovies mid })
    let db4 := updateUser db3 oid (fun v => { v with watchLaterMovies := pullOpt v.watchLaterMovies mid })
    (⟨201, none, none, none⟩, db4)

/-- `add_read_book` (`POST /read/user/<user_id>/book/<book_id>`): an invalid
user id falls into the outer `except` (500); a `None` book payload is 404;
a missing user is 404; a book id already in `readBooks` is a 409 duplicate
rejected before any write; otherwise `$set`/`$push` `readBooks`, `$pull`
`toBeReadBooks`, and log an "Added book to Read" activity. -/
def add_read_book (db : Db) (bl : String → BookFetch) (userId : Option Oid)
    (bookId : String) (freshAid : Oid) (nowT : Nat) : Resp × Db :=
  match userId with
  | none => (⟨500, some "server", none, none⟩, db)
  | some oid =>
  let b := bl bookId
  if b = BookFetch.noneResult then (⟨404, some "book_not_found", none, none⟩, db)
  else match findUser db oid with
  | none => (⟨404, some "user_not_found", none, none⟩, db)
  | some u =>
    if bookId ∈ u.readBooks.getD [] then
      (⟨409, some "duplicate_entry", none, none⟩, db)
    else
      let db2 := updateUser db oid (fun v =>
        match u.readBooks with
        | none => { v with readBooks := some [bookId] }
        | some _ => { v with readBooks := some (v.readBooks.getD [] ++ [bookId]) })
      let db3 := updateUser db2 oid (fun v => { v with toBeReadBooks := pullOpt v.toBeReadBooks bookId })
      let baseMeta : List (String × MetaVal) :=
        [("bookId", .s bookId), ("status", .s "Read"), ("type", .s "book"),
         ("coverUrl", match _safe_cover_url b with | some s => .s s | none => .nullv)]
      let meta := baseMeta ++
        (match _safe_book_title b with
         | some t => if t ≠ "" then [("title", MetaVal.s t)] else []
         | none => [])
      let act : ActivityRow := ⟨freshAid, oid, "Added book to Read", some meta, nowT⟩
      let db4 := { db3 with userActivities := db3.userActivities ++ [act] }
      let db5 := updateUser db4 oid (fun v => { v with activities := freshAid :: v.activities })
      (⟨200, none, none, none⟩, db5)

/-- `add_review_book` (`POST /createbookreview`): an invalid user id falls
into the outer `except`, whose `jsonify` return carries no status (HTTP 200);
a `None` book payload is 404 (an error-tuple payload is NOT `None` and
proceeds); then rating (int in [1,10]) and body validation, user existence,
review insertion, user updates (`$addToSet` review ref, `$addToSet`
`readBooks`, `$pull` `toBeReadBooks`) and a "Reviewed book" activity log. -/
def add_review_book (db : Db) (bl : String → BookFetch) (userId : Option Oid)
    (bookId : String) (rating : Option Int) (title : Option String)
    (body : Option String) (now : String) (freshRid freshAid : Oid)
    (nowT : Nat) : Resp × Db :=
  match userId with
  | none => (⟨200, some "server", none, none⟩, db)
  | some oid =>
  let b := bl bookId
  if b = BookFetch.noneResult then (⟨404, some "book_not_found", none, none⟩, db)
  else match rating with
  | none => (⟨400, some "invalid_rating", none, none⟩, db)
  | some r =>
  if r < 1 ∨ r > 10 then (⟨400, some "rating_out_of_range", none, none⟩, db)
  else match body with
  | none => (⟨400, some "missing_body", none, none⟩, db)
  | some bod =>
  if pyStrip bod = "" then (⟨400, some "missing_body", none, none⟩, db)
  else match findUser db oid with
  | none => (⟨404, some "user_not_found", none, none⟩, db)
  | some _ =>
    let doc : BookReview := ⟨freshRid, oid, bookId, r, title, pyStrip bod, .dt now, .dt now⟩
    let db1 := { db with bookReviews := db.bookReviews ++ [doc] }
    let db2 := updateUser db1 oid (fun v => { v with bookReviews := addToSetList v.bookReviews freshRid })
    let db3 := updateUser db2 oid (fun v => { v with readBooks := addToSetOpt v.readBooks bookId })
    let db4 := updateUser db3 oid (fun v => { v with toBeReadBooks := pullOpt v.toBeReadBooks bookId })
    let act : ActivityRow := ⟨freshAid, oid, "Reviewed book",
      some [("bookId", .s bookId), ("rating", .i r),
            ("title", match title with | some t => .s t | none => .nullv),
            ("reviewId", .s (toString freshRid)), ("type", .s "book"),
            ("coverUrl", match _safe_cover_url b with | some s => .s s | none => .nullv)],
      nowT⟩
    let db5 := { db4 with userActivities := db4.userActivities ++ [act] }
    let db6 := updateUser db5 oid (fun v => { v with activities := freshAid :: v.activities })
    (⟨201, none, none, none⟩, db6)

/-! ### Helper lemmas about `updateFirst` / `pullOpt` -/

theorem updateFirst_no_change (p : α → Bool) (f : α → α) :
    ∀ (l : List α) (x : α), List.find? p l = some x → f x = x →
      updateFirst p f l = l := by
  intro l
  induction l with
  | nil => intro x h _; cases h
  | cons y ys ih =>
    intro x h hfx
    rw [updateFirst]
    by_cases hy : p y = true
    · rw [List.find?_cons_of_pos _ hy] at h
      cases h
      rw [if_pos hy, hfx]
    · rw [List.find?_cons_of_neg _ hy] at h
      rw [if_neg hy, ih x h hfx]

theorem find?_updateFirst (p : α → Bool) (f : α → α) :
    ∀ (l : List α) (x : α), List.find? p l = some x → p (f x) = true →
      List.find? p (updateFirst p f l) = some (f x) := by
  intro l
  induction l with
  | nil => intro x h _; cases h
  | cons y ys ih =>
    intro x h hpf
    rw [updateFirst]
    by_cases hy : p y = true
    · rw [List.find?_cons_of_pos _ hy] at h
      cases h
      rw [if_pos hy]
      exact List.find?_cons_of_pos _ hpf
    · rw [List.find?_cons_of_neg _ hy] at h
      rw [if_neg hy]
      rw [List.find?_cons_of_neg _ hy]
      exact ih x h hpf

theorem pullOpt_not_mem [DecidableEq α] (l : Option (List α)) (v : α)
    (h : v ∉ l.getD []) : pullOpt l v = l := by
  cases l with
  | none => rfl
  | some cur =>
    simp only [Option.getD_some] at h
    have : cur.filter (fun x => x ≠ v) = cur :=
      List.filter_eq_self.mpr (fun x hx =>
        decide_eq_true (fun hxv => h (hxv ▸ hx)))
    rw [show pullOpt (some cur) v = some (cur.filter (fun x => x ≠ v)) from rfl, this]

theorem not_mem_pullOpt [DecidableEq α] (l : Option (List α)) (v : α) :
    v ∉ (pullOpt l v).getD [] := by
  cases l with
  | none => simp [pullOpt]
  | some cur => simp [pullOpt]

/-! ### Claim C8 — int32 validation of movie identifiers -/

/-- C8: on each of the five movie endpoints, with a well-formed user id, a
non-numeric movie identifier (`int()` failure, modelled as `none`) yields a
400 `invalid_movie_id` and an identifier outside the signed 32-bit range
yields a 400 `movie_id_out_of_range_int32`; in both cases the database is
returned unchanged, and since the result is the same for every TMDB oracle
`ml` and key state `hk` (they are universally quantified), no outbound lookup
influences it. -/
theorem movie_id_int32_validation (db : Db) (ml : Int → Option MovieMeta)
    (hk : Bool) (u : Oid) (m : Int) (rating : Option Int)
    (title : Option String) (body : Option String) (now : String) (rid : Oid)
    (hm : m < -2147483648 ∨ m > 2147483647) :
    (add_watched_movie db ml hk (some u) none
        = (⟨400, some "invalid_movie_id", none, none⟩, db)
      ∧ add_watched_movie db ml hk (some u) (some m)
        = (⟨400, some "movie_id_out_of_range_int32", none, none⟩, db))
    ∧ (add_watch_later_movie db ml hk (some u) none
        = (⟨400, some "invalid_movie_id", none, none⟩, db)
      ∧ add_watch_later_movie db ml hk (some u) (some m)
        = (⟨400, some "movie_id_out_of_range_int32", none, none⟩, db))
    ∧ (create_movie_review db ml hk (some u) none rating title body now rid
        = (⟨400, some "invalid_movie_id", none, none⟩, db)
      ∧ create_movie_review db ml hk (some u) (some m) rating title body now rid
        = (⟨400, some "movie_id_out_of_range_int32", none, none⟩, db))
    ∧ (remove_watched_movie db (some u) none
        = (⟨400, some "invalid_movie_id", none, none⟩, db)
      ∧ remove_watched_movie db (some u) (some m)
        = (⟨400, some "movie_id_out_of_range_int32", none, none⟩, db))
    ∧ (remove_watch_later_movie db (some u) none
        = (⟨400, some "invalid_movie_id", none, none⟩, db)
      ∧ remove_watch_later_movie db (some u) (some m)
        = (⟨400, some "movie_id_out_of_range_int32", none, none⟩, db)) := by
  refine ⟨⟨rfl, ?_⟩, ⟨rfl, ?_⟩, ⟨rfl, ?_⟩, ⟨rfl, ?_⟩, ⟨rfl, ?_⟩⟩
  · simp only [add_watched_movie]
    rw [if_pos hm]
  · simp only [add_watch_later_movie]
    rw [if_pos hm]
  · simp only [create_movie_review]
    rw [if_pos (by omega : ¬ (-2147483648 ≤ m ∧ m ≤ 2147483647))]
  · simp only [remove_watched_movie]
    rw [if_pos hm]
  · simp only [remove_watch_later_movie]
    rw [if_pos hm]

/-- Example database for the endpoint witnesses: a bare user 0. -/
def exDb8 : Db := ⟨[mkUser 0], [], [], []⟩

/-- Witness for C8: the id 2147483648 (one above int32 max) is rejected on
`add_watched_movie` with the database unchanged. -/
theorem movie_id_int32_validation_witness :
    add_watched_movie exDb8 (fun _ => none) true (some 0) (some 2147483648)
      = (⟨400, some "movie_id_out_of_range_int32", none, none⟩, exDb8) :=
  (movie_id_int32_validation exDb8 (fun _ => none) true 0 2147483648
    none none none "" 9 (by decide)).1.2

/-! ### Claim C9 — duplicate membership additions are rejected without a write -/

/-- C9: adding a movie already present in `watchedMovies` returns 409
`already_in_watched`, and adding a book already present in `readBooks`
returns 409 `duplicate_entry`; in both cases the database — the user document
included — is returned exactly unchanged (the duplicate check precedes every
write, including the activity log). -/
theorem duplicate_add_rejected (db : Db) (ml : Int → Option MovieMeta)
    (bl : String → BookFetch) (u : Oid) (usr : UserDoc) (m : Int)
    (bookId : String) (meta : MovieMeta) (aid : Oid) (nowT : Nat)
    (hrange : ¬ (m < -2147483648 ∨ m > 2147483647))
    (hml : ml m = some meta)
    (hu : findUser db u = some usr) :
    (m ∈ usr.watchedMovies.getD [] →
      add_watched_movie db ml true (some u) (some m)
        = (⟨409, some "already_in_watched", none, none⟩, db))
    ∧ (bl bookId ≠ BookFetch.noneResult → bookId ∈ usr.readBooks.getD [] →
      add_read_book db bl (some u) bookId aid nowT
        = (⟨409, some "duplicate_entry", none, none⟩, db)) := by
  constructor
  · intro hmem
    simp [add_watched_movie, hml, hu, hmem, hrange]
  · intro hbl hmem
    simp [add_read_book, hu, hmem, hbl]

/-- A user who has already watched movie 5 and read book "B". -/
def exUsr9 : UserDoc :=
  ⟨0, none, none, none, some [5], none, some ["B"], none, [], [], []⟩

def exDb9 : Db := ⟨[exUsr9], [], [], []⟩

def exMeta9 : MovieMeta := ⟨some 5, "Heat", "1995", "", none, none⟩

/-- Witness for C9: re-adding movie 5 to user 0's watched list is rejected
with 409 and an unchanged database. -/
theorem duplicate_add_rejected_witness :
    add_watched_movie exDb9 (fun _ => some exMeta9) true (some 0) (some 5)
      = (⟨409, some "already_in_watched", none, none⟩, exDb9) :=
  (duplicate_add_rejected exDb9 (fun _ => some exMeta9)
    (fun _ => BookFetch.noneResult) 0 exUsr9 5 "B" exMeta9 1 0
    (by decide) rfl rfl).1 (by decide)

/-! ### Claim C10 — removal endpoints are idempotent -/

theorem updateUser_no_change (db : Db) (u : Oid) (f : UserDoc → UserDoc)
    (usr : UserDoc) (hu : findUser db u = some usr) (hfx : f usr = usr) :
    updateUser db u f = db := by
  have hu' : List.find? (fun x : UserDoc => x.id == u) db.users = some usr := hu
  have h := updateFirst_no_change (fun x : UserDoc => x.id == u) f db.users usr hu' hfx
  unfold updateUser
  rw [h]

theorem findUser_updateUser (db : Db) (u : Oid) (f : UserDoc → UserDoc)
    (usr : UserDoc) (hu : findUser db u = some usr) (hpf : (f usr).id = usr.id) :
    findUser (updateUser db u f) u = some (f usr) := by
  have hu' : List.find? (fun x : UserDoc => x.id == u) db.users = some usr := hu
  have hp : (fun x : UserDoc => x.id == u) usr = true :=
    List.find?_some (p := fun x : UserDoc => x.id == u) hu'
  have hpf2 : (fun x : UserDoc => x.id == u) (f usr) = true := by
    show ((f usr).id == u) = true
    rw [hpf]
    exact hp
  exact find?_updateFirst (fun x : UserDoc => x.id == u) f db.users usr hu' hpf2

theorem remove_watched_noop (db : Db) (u : Oid) (usr : UserDoc) (m : Int)
    (hrange : ¬ (m < -2147483648 ∨ m > 2147483647))
    (hu : findUser db u = some usr)
    (hm : m ∉ usr.watchedMovies.getD []) :
    remove_watched_movie db (some u) (some m)
      = (⟨200, none, some false, some ((usr.watchedMovies.getD []).length)⟩, db) := by
  have hpull : pullOpt usr.watchedMovies m = usr.watchedMovies := pullOpt_not_mem _ _ hm
  have hfx : (fun v : UserDoc => { v with watchedMovies := pullOpt v.watchedMovies m }) usr = usr := by
    show ({ usr with watchedMovies := pullOpt usr.watchedMovies m } : UserDoc) = usr
    rw [hpull]
  have hdb2 := updateUser_no_change db u
    (fun v => { v with watchedMovies := pullOpt v.watchedMovies m }) usr hu hfx
  simp only [remove_watched_movie, hu]
  rw [if_neg hrange, hdb2, hpull, hu]
  simp

theorem remove_watch_later_noop (db : Db) (u : Oid) (usr : UserDoc) (m : Int)
    (hrange : ¬ (m < -2147483648 ∨ m > 2147483647))
    (hu : findUser db u = some usr)
    (hm : m ∉ usr.watchLaterMovies.getD []) :
    remove_watch_later_movie db (some u) (some m)
      = (⟨200, none, some false, some ((usr.watchLaterMovies.getD []).length)⟩, db) := by
  have hpull : pullOpt usr.watchLaterMovies m = usr.watchLaterMovies := pullOpt_not_mem _ _ hm
  have hfx : (fun v : UserDoc => { v with watchLaterMovies := pullOpt v.watchLaterMovies m }) usr = usr := by
    show ({ usr with watchLaterMovies := pullOpt usr.watchLaterMovies m } : UserDoc) = usr
    rw [hpull]
  have hdb2 := updateUser_no_change db u
    (fun v => { v with watchLaterMovies := pullOpt v.watchLaterMovies m }) usr hu hfx
  simp only [remove_watch_later_movie, hu]
  rw [if_neg hrange, hdb2, hpull, hu]
  simp

/-- C10: removing an id that is not present (in particular from a missing
field) succeeds with status 200, reports `removed = false`, and leaves the
database completely unchanged; and on any state, a second removal of the same
id leaves the state of the first removal unchanged and reports
`removed = false`, so removing twice equals removing once.  Both the watched
and watch-later endpoints are covered. -/
theorem remove_movie_idempotent (db : Db) (u : Oid) (usr : UserDoc) (m : Int)
    (hrange : ¬ (m < -2147483648 ∨ m > 2147483647))
    (hu : findUser db u = some usr) :
    (m ∉ usr.watchedMovies.getD [] →
      remove_watched_movie db (some u) (some m)
        = (⟨200, none, some false, some ((usr.watchedMovies.getD []).length)⟩, db))
    ∧ ((remove_watched_movie (remove_watched_movie db (some u) (some m)).2
          (some u) (some m)).2
        = (remove_watched_movie db (some u) (some m)).2
      ∧ (remove_watched_movie (remove_watched_movie db (some u) (some m)).2
          (some u) (some m)).1.removed = some false)
    ∧ (m ∉ usr.watchLaterMovies.getD [] →
      remove_watch_later_movie db (some u) (some m)
        = (⟨200, none, some false, some ((usr.watchLaterMovies.getD []).length)⟩, db))
    ∧ ((remove_watch_later_movie (remove_watch_later_movie db (some u) (some m)).2
          (some u) (some m)).2
        = (remove_watch_later_movie db (some u) (some m)).2
      ∧ (remove_watch_later_movie (remove_watch_later_movie db (some u) (some m)).2
          (some u) (some m)).1.removed = some false) := by
  refine ⟨remove_watched_noop db u usr m hrange hu, ?_,
    remove_watch_later_noop db u usr m hrange hu, ?_⟩
  · have h2 : (remove_watched_movie db (some u) (some m)).2
        = updateUser db u (fun v => { v with watchedMovies := pullOpt v.watchedMovies m }) := by
      simp only [remove_watched_movie, hu]
      rw [if_neg hrange]
    have hf1 : findUser ((remove_watched_movie db (some u) (some m)).2) u
        = some ({ usr with watchedMovies := pullOpt usr.watchedMovies m }) := by
      rw [h2]
      exact findUser_updateUser db u
        (fun v => { v with watchedMovies := pullOpt v.watchedMovies m }) usr hu rfl
    have hnm : m ∉ ({ usr with watchedMovies := pullOpt usr.watchedMovies m } : UserDoc).watchedMovies.getD [] :=
      not_mem_pullOpt _ _
    have hstep := remove_watched_noop ((remove_watched_movie db (some u) (some m)).2)
      u _ m hrange hf1 hnm
    rw [hstep]
    exact ⟨rfl, rfl⟩
  · have h2 : (remove_watch_later_movie db (some u) (some m)).2
        = updateUser db u (fun v => { v with watchLaterMovies := pullOpt v.watchLaterMovies m }) := by
      simp only [remove_watch_later_movie, hu]
      rw [if_neg hrange]
    have hf1 : findUser ((remove_watch_later_movie db (some u) (some m)).2) u
        = some ({ usr with watchLaterMovies := pullOpt usr.watchLaterMovies m }) := by
      rw [h2]
      exact findUser_updateUser db u
        (fun v => { v with watchLaterMovies := pullOpt v.watchLaterMovies m }) usr hu rfl
    have hnm : m ∉ ({ usr with watchLaterMovies := pullOpt usr.watchLaterMovies m } : UserDoc).watchLaterMovies.getD [] :=
      not_mem_pullOpt _ _
    have hstep := remove_watch_later_noop ((remove_watch_later_movie db (some u) (some m)).2)
      u _ m hrange hf1 hnm
    rw [hstep]
    exact ⟨rfl, rfl⟩

/-- A user who has watched movie 3 only. -/
def exUsr10 : UserDoc :=
  ⟨0, none, none, none, some [3], none, none, none, [], [], []⟩

def exDb10 : Db := ⟨[exUsr10], [], [], []⟩

/-- Witness for C10: removing absent movie 5 from user 0's watched list
returns 200, `removed = false`, count 1, and the unchanged database. -/
theorem remove_movie_idempotent_witness :
    remove_watched_movie exDb10 (some 0) (some 5)
      = (⟨200, none, some false, some 1⟩, exDb10) :=
  (remove_movie_idempotent exDb10 0 exUsr10 5 (by decide) rfl).1 (by decide)

/-! ### Claim C7 — rating validation on review creation -/

/-- C7: on both review-creation endpoints, a parsed integer rating in [1,10]
(in particular the boundaries 1 and 10) passes validation and — with the other
inputs valid — the review is stored with that rating; a rating outside [1,10]
(in particular 0 and 11) is rejected with 400 `rating_out_of_range` and the
database is returned unchanged; and every review in the resulting store
either pre-existed or has a rating within [1,10] and a non-empty (trimmed at
write time) body. -/
theorem review_rating_validation (db : Db) (ml : Int → Option MovieMeta)
    (bl : String → BookFetch) (hk : Bool) (now : String) (rid aid : Oid)
    (nowT : Nat) :
    (∀ (u : Oid) (m r : Int) (t : Option String) (s : String)
        (meta : MovieMeta) (usr : UserDoc),
      (-2147483648 ≤ m ∧ m ≤ 2147483647) → 1 ≤ r → r ≤ 10 → pyStrip s ≠ "" →
      hk = true → ml m = some meta → findUser db u = some usr →
      (create_movie_review db ml hk (some u) (some m) (some r) t (some s) now rid).1.status = 201
      ∧ (create_movie_review db ml hk (some u) (some m) (some r) t (some s) now rid).2.movieReviews
          = db.movieReviews ++ [⟨rid, u, m, r, t, pyStrip s, .dt now, .dt now⟩])
    ∧ (∀ (u : Oid) (m r : Int) (t : Option String) (b : Option String),
      (-2147483648 ≤ m ∧ m ≤ 2147483647) → (r < 1 ∨ r > 10) →
      create_movie_review db ml hk (some u) (some m) (some r) t b now rid
        = (⟨400, some "rating_out_of_range", none, none⟩, db))
    ∧ (∀ (uO : Option Oid) (mO rO : Option Int) (t bO : Option String),
      ∀ rv ∈ (create_movie_review db ml hk uO mO rO t bO now rid).2.movieReviews,
        rv ∈ db.movieReviews ∨ (1 ≤ rv.rating ∧ rv.rating ≤ 10 ∧ rv.body ≠ ""))
    ∧ (∀ (u : Oid) (bk : String) (r : Int) (t : Option String) (s : String)
        (bmeta : BookMeta) (usr : UserDoc),
      bl bk = BookFetch.json bmeta → 1 ≤ r → r ≤ 10 → pyStrip s ≠ "" →
      findUser db u = some usr →
      (add_review_book db bl (some u) bk (some r) t (some s) now rid aid nowT).1.status = 201
      ∧ (add_review_book db bl (some u) bk (some r) t (some s) now rid aid nowT).2.bookReviews
          = db.bookReviews ++ [⟨rid, u, bk, r, t, pyStrip s, .dt now, .dt now⟩])
    ∧ (∀ (u : Oid) (bk : String) (r : Int) (t : Option String) (b : Option String),
      bl bk ≠ BookFetch.noneResult → (r < 1 ∨ r > 10) →
      add_review_book db bl (some u) bk (some r) t b now rid aid nowT
        = (⟨400, some "rating_out_of_range", none, none⟩, db))
    ∧ (∀ (uO : Option Oid) (bk : String) (rO : Option Int) (t bO : Option String),
      ∀ rv ∈ (add_review_book db bl uO bk rO t bO now rid aid nowT).2.bookReviews,
        rv ∈ db.bookReviews ∨ (1 ≤ rv.rating ∧ rv.rating ≤ 10 ∧ rv.body ≠ "")) := by
  refine ⟨?_, ?_, ?_, ?_, ?_, ?_⟩
  · intro u m r t s meta usr hm h1 h10 hst hkt hml husr
    subst hkt
    have hr' : ¬ (r < 1 ∨ r > 10) := by omega
    constructor
    · simp [create_movie_review, hml, husr, hm.1, hm.2, hr', hst]
    · simp [create_movie_review, updateUser, hml, husr, hm.1, hm.2, hr', hst]
  · intro u m r t b hm hr
    simp [create_movie_review, hm.1, hm.2, hr]
  · intro uO mO rO t bO rv hrv
    cases uO with
    | none => exact Or.inl hrv
    | some oid =>
    cases mO with
    | none => exact Or.inl hrv
    | some m =>
    cases rO with
    | none =>
      simp only [create_movie_review] at hrv
      repeat
        first
          | exact Or.inl hrv
          | split at hrv
    | some r =>
      cases bO with
      | none =>
        simp only [create_movie_review] at hrv
        repeat
          first
            | exact Or.inl hrv
            | split at hrv
      | some bod =>
        simp only [create_movie_review] at hrv
        repeat
          first
            | exact Or.inl hrv
            | split at hrv
        all_goals
          simp only [updateUser, List.mem_append, List.mem_singleton] at hrv
          rcases hrv with h | h
          · exact Or.inl h
          · right
            rw [h]
            exact ⟨by show (1:Int) ≤ r; omega, by show r ≤ (10:Int); omega,
              by show pyStrip bod ≠ ""; assumption⟩
  · intro u bk r t s bmeta usr hbl h1 h10 hst husr
    have hr' : ¬ (r < 1 ∨ r > 10) := by omega
    have hne : bl bk ≠ BookFetch.noneResult := by rw [hbl]; intro h; cases h
    constructor
    · simp [add_review_book, hne, husr, hr', hst]
    · simp [add_review_book, updateUser, hne, husr, hr', hst]
  · intro u bk r t b hbl hr
    simp [add_review_book, hbl, hr]
  · intro uO bk rO t bO rv hrv
    cases uO with
    | none => exact Or.inl hrv
    | some oid =>
    cases rO with
    | none =>
      simp only [add_review_book] at hrv
      repeat
        first
          | exact Or.inl hrv
          | split at hrv
    | some r =>
      cases bO with
      | none =>
        simp only [add_review_book] at hrv
        repeat
          first
            | exact Or.inl hrv
            | split at hrv
      | some bod =>
        simp only [add_review_book] at hrv
        repeat
          first
            | exact Or.inl hrv
            | split at hrv
        all_goals
          simp only [updateUser, List.mem_append, List.mem_singleton] at hrv
          rcases hrv with h | h
          · exact Or.inl h
          · right
            rw [h]
            exact ⟨by show (1:Int) ≤ r; omega, by show r ≤ (10:Int); omega,
              by show pyStrip bod ≠ ""; assumption⟩

/-- Witness for C7: with valid inputs, rating 10 is accepted (201, review
stored) and rating 11 is rejected with `rating_out_of_range` leaving the
database unchanged. -/
theorem review_rating_validation_witness :
    (create_movie_review exDb8 (fun _ => some exMeta9) true (some 0) (some 5)
        (some 10) none (some "nice") "2024-03-01T00:00:00" 42).1.status = 201
    ∧ create_movie_review exDb8 (fun _ => some exMeta9) true (some 0) (some 5)
        (some 11) none (some "nice") "2024-03-01T00:00:00" 42
      = (⟨400, some "rating_out_of_range", none, none⟩, exDb8) :=
  ⟨((review_rating_validation exDb8 (fun _ => some exMeta9) (fun _ => BookFetch.noneResult)
      true "2024-03-01T00:00:00" 42 7 0).1 0 5 10 none "nice" exMeta9 (mkUser 0)
      (by decide) (by decide) (by decide) (by decide) rfl rfl rfl).1,
   (review_rating_validation exDb8 (fun _ => some exMeta9) (fun _ => BookFetch.noneResult)
      true "2024-03-01T00:00:00" 42 7 0).2.1 0 5 11 none (some "nice")
      (by decide) (by decide)⟩

/-! ### Claim C4 — bounded parallel movie enrichment preserves order -/

/-- The worker-count computation of `_fetch_movies_parallel_ordered`:
`max(1, min(int(max_workers or 1), n))`. -/
def workersFor (max_workers n : Nat) : Nat := max 1 (min max_workers n)

/-- `_fetch_movies_parallel_ordered` from `app/tmdb/routes.py`.  The thread
pool writes each future's result into the slot of its submission index
(`results[i]`), in whatever completion order `as_completed` yields — modelled
by the index list `order`; a future that raises stores `None` and a lookup
failure returns `None`, both covered by the oracle returning `none`.  The
final list comprehension keeps the non-`None` results in slot order.  For an
empty input the result is `[]`; for a single-element input (workers == 1) the
code takes the explicit sequential path, which is the same filter-map. -/
def _fetch_movies_parallel_ordered (fetch : Int → Option MovieMeta)
    (movie_ids : List Int) (order : List Nat) (max_workers : Nat) : List MovieMeta :=
  let n := movie_ids.length
  if n = 0 then []
  else if workersFor max_workers n = 1 then movie_ids.filterMap fetch
  else
    (order.foldl (fun res i => res.set i ((movie_ids[i]?).bind fetch))
      (List.replicate n (none : Option MovieMeta))).filterMap id

theorem foldl_set_length (v : Nat → Option MovieMeta) (order : List Nat) :
    ∀ init : List (Option MovieMeta),
      (order.foldl (fun res i => res.set i (v i)) init).length = init.length := by
  induction order with
  | nil => intro init; rfl
  | cons a rest ih =>
    intro init
    rw [List.foldl_cons, ih (init.set a (v a)), List.length_set]

theorem foldl_set_getElem_not_mem (v : Nat → Option MovieMeta) (order : List Nat)
    (i : Nat) (hi : i ∉ order) :
    ∀ init : List (Option MovieMeta),
      (order.foldl (fun res j => res.set j (v j)) init)[i]? = init[i]? := by
  induction order with
  | nil => intro init; rfl
  | cons a rest ih =>
    intro init
    have hia : a ≠ i := fun h => hi (h ▸ List.mem_cons_self a rest)
    rw [List.foldl_cons, ih (fun h => hi (List.mem_cons_of_mem _ h)) (init.set a (v a)),
      List.getElem?_set_ne hia]

theorem foldl_set_getElem_mem (v : Nat → Option MovieMeta) (order : List Nat)
    (i : Nat) (hi : i ∈ order) :
    ∀ init : List (Option MovieMeta), i < init.length →
      (order.foldl (fun res j => res.set j (v j)) init)[i]? = some (v i) := by
  induction order with
  | nil => cases hi
  | cons a rest ih =>
    intro init hlen
    rw [List.foldl_cons]
    by_cases hr : i ∈ rest
    · exact ih hr (init.set a (v a)) (by rw [List.length_set]; exact hlen)
    · have hia : i = a := by
        rcases List.mem_cons.mp hi with h | h
        · exact h
        · exact absurd h hr
      subst hia
      rw [foldl_set_getElem_not_mem v rest i hr (init.set i (v i))]
      exact List.getElem?_set_self hlen

/-- C4: for every oracle, every input id list and every completion order (a
permutation of the submission indices), the parallel fetch with the default
worker cap of 10 equals the sequential filter-map of the oracle over the
input list — resolved movies appear in exactly the caller-supplied order,
entries whose lookup fails (`none`) are omitted without failing the batch —
and the worker count never exceeds 10. -/
theorem parallel_fetch_eq_sequential (fetch : Int → Option MovieMeta)
    (movie_ids : List Int) (order : List Nat)
    (hperm : List.Perm order (List.range movie_ids.length)) :
    _fetch_movies_parallel_ordered fetch movie_ids order 10
      = movie_ids.filterMap fetch
    ∧ workersFor 10 movie_ids.length ≤ 10 := by
  constructor
  · rw [_fetch_movies_parallel_ordered]
    by_cases h0 : movie_ids.length = 0
    · rw [if_pos h0]
      rw [List.length_eq_zero.mp h0]
      rfl
    · rw [if_neg h0]
      by_cases h1 : workersFor 10 movie_ids.length = 1
      · rw [if_pos h1]
      · rw [if_neg h1]
        have hres : (order.foldl (fun res i => res.set i ((movie_ids[i]?).bind fetch))
              (List.replicate movie_ids.length (none : Option MovieMeta)))
            = movie_ids.map fetch := by
          refine List.ext_getElem? (fun i => ?_)
          by_cases hin : i < movie_ids.length
          · rw [foldl_set_getElem_mem _ order i
              (hperm.mem_iff.mpr (List.mem_range.mpr hin)) _
              (by rw [List.length_replicate]; exact hin)]
            rw [List.getElem?_map, List.getElem?_eq_getElem hin]
            rfl
          · rw [foldl_set_getElem_not_mem _ order i
              (fun hmem => hin (List.mem_range.mp (hperm.mem_iff.mp hmem)))]
            rw [List.getElem?_eq_none (by rw [List.length_replicate]; omega),
              List.getElem?_eq_none (by rw [List.length_map]; omega)]
        rw [hres, List.filterMap_map]
        rfl
  · exact Nat.max_le.mpr ⟨by omega, Nat.le_trans (Nat.min_le_left _ _) (Nat.le_refl _)⟩

/-- A concrete oracle for the C4 witness: movie 1 fails to resolve, the rest
succeed. -/
def exFetch4 : Int → Option MovieMeta :=
  fun i => if i = 1 then none else some ⟨some i, "m", "2000", "", none, none⟩

/-- Witness for C4: with ids `[1, 2, 3]` and completion order `[2, 0, 1]`
(last-submitted finishing first), the parallel result equals the sequential
filter-map (the failing id 1 is omitted, order 2-before-3 preserved), and the
worker cap is at most 10. -/
theorem parallel_fetch_eq_sequential_witness :
    _fetch_movies_parallel_ordered exFetch4 [1, 2, 3] [2, 0, 1] 10
      = [1, 2, 3].filterMap exFetch4
    ∧ workersFor 10 ([1, 2, 3] : List Int).length ≤ 10 :=
  parallel_fetch_eq_sequential exFetch4 [1, 2, 3] [2, 0, 1] (by decide)
